import Mathlib

/-!
Shallow embedding of the fitness-tracker metrics/inference core
(`metrics.py`, `activity.py`, and the per-session pipeline in `app.py`).

Python floats are modelled by the type `F` below: a finite value carries an
exact rational, and the three non-finite values (`nan`, `pinf`, `ninf`) are
explicit constructors, with IEEE comparison semantics (`nan` compares false
with everything).  Functions whose arguments are always finite in the
properties under study take plain rationals.  The haversine geometry uses
real numbers, since it involves `sin`, `cos`, `sqrt` and `arctan`.
-/

/-- Model of a Python float: a finite rational or one of the three
non-finite IEEE values. -/
inductive F where
  | nan : F
  | pinf : F
  | ninf : F
  | fin : ℚ → F
deriving DecidableEq

/-- `np.isfinite` / `math.isfinite`. -/
def F.isFinite : F → Bool
  | .fin _ => true
  | _ => false

/-- IEEE `<` on modelled floats: any comparison with `nan` is false. -/
def F.blt : F → F → Bool
  | .nan, _ => false
  | _, .nan => false
  | .ninf, .ninf => false
  | .ninf, _ => true
  | _, .ninf => false
  | .pinf, _ => false
  | .fin _, .pinf => true
  | .fin x, .fin y => decide (x < y)

/-- IEEE `>=` on modelled floats: false when either side is `nan`,
otherwise the negation of `<`. -/
def F.bge : F → F → Bool
  | .nan, _ => false
  | _, .nan => false
  | a, b => !F.blt a b

/-- `activity.guess_activity`: speed-band classifier on average speed in
km/h (a float, possibly non-finite). -/
def guess_activity (avg_speed_kmh : F) : String :=
  if !avg_speed_kmh.isFinite || F.blt avg_speed_kmh (F.fin 1.5) then "sitting/idle"
  else if F.blt avg_speed_kmh (F.fin 6.0) then "walking"
  else if F.blt avg_speed_kmh (F.fin 12.0) then "running"
  else "cycling"

/-- The stairs-override classification inlined in `app.py`:
`stairs` when `np.isfinite(floors_per_min) and floors_per_min >= 1.0 and
(not np.isfinite(avg_kmh) or avg_kmh < 6.0)`, otherwise the band label. -/
def classify (avg_kmh floors_per_min : F) : String :=
  if floors_per_min.isFinite && F.bge floors_per_min (F.fin 1.0)
      && (!avg_kmh.isFinite || F.blt avg_kmh (F.fin 6.0)) then "stairs"
  else guess_activity avg_kmh

/-- Python `str.lower()` (ASCII case mapping on each character). -/
def pyLower (s : String) : String :=
  String.mk (s.data.map Char.toLower)

/-- Python `str.strip()`: drop leading and trailing whitespace. -/
def pyStrip (s : String) : String :=
  String.mk (((s.data.dropWhile Char.isWhitespace).reverse.dropWhile
    Char.isWhitespace).reverse)

/-- `app.normalize_activity`: collapse a label to one of
sitting / walking / running / stairs (anything unrecognized, cycling
included, maps to walking). -/
def normalize_activity (name : String) : String :=
  let n := pyLower (pyStrip name)
  if n = "stairs" ∨ n = "stair" ∨ n = "stairclimb" ∨ n = "stair climbing" then "stairs"
  else if n = "running" ∨ n = "run" ∨ n = "jogging" then "running"
  else if n = "walking" ∨ n = "walk" then "walking"
  else if n = "sitting/idle" ∨ n = "idle" ∨ n = "rest" ∨ n = "sitting" then "sitting"
  else "walking"

/-- `metrics.met_for_activity`: MET value from activity label and average
speed (finite in all uses studied here). -/
def met_for_activity (activity : String) (avg_speed_kmh_val : ℚ) : ℚ :=
  if activity = "sitting/idle" then 1.5
  else if activity = "walking" then max 3.0 (min 5.0 (3.0 + 0.4 * (avg_speed_kmh_val - 3)))
  else if activity = "running" then max 7.0 (min 12.0 (6.0 + 0.6 * avg_speed_kmh_val))
  else if activity = "cycling" then max 6.0 (min 12.0 (2.0 + 0.5 * avg_speed_kmh_val))
  else if activity = "stairs" then 8.0
  else 3.5

/-- `metrics.floors_from_gain`: elevation gain in meters to floor count,
a plain division by 3 with no rounding and no clamping. -/
def floors_from_gain (gain_m : ℚ) : ℚ :=
  gain_m / 3.0

/-- `metrics.calories_from_met`. -/
def calories_from_met (met minutes weight_kg : ℚ) : ℚ :=
  met * 3.5 * weight_kg / 200.0 * max 0.0 minutes

/-- `metrics.estimate_life_expectancy_gain`: piecewise curve from weekly
MET-minutes (a float: `0` for non-finite or non-positive input). -/
def estimate_life_expectancy_gain (weekly_met_min : F) : ℚ :=
  match weekly_met_min with
  | .fin w =>
    if w ≤ 0 then 0.0
    else if w < 150 then 0.5 * (w / 150.0)
    else if w < 300 then 1.0 + (w - 150.0) / 150.0 * 2.0
    else if w < 600 then 3.0 + (w - 300.0) / 300.0 * 1.2
    else 4.2 + (min (w - 600.0) 900.0 / 900.0) * 2.5
  | _ => 0.0

/-- Recursive part of `activity.ema`: given the previous smoothed value,
produce the remaining smoothed values
(`y[i] = alpha * values[i] + (1 - alpha) * y[i-1]`). -/
def emaAux (alpha : ℚ) (prev : ℚ) : List ℚ → List ℚ
  | [] => []
  | v :: vs =>
    let cur := alpha * v + (1 - alpha) * prev
    cur :: emaAux alpha cur vs

/-- `activity.ema`: exponential moving average, seeded at the first raw
value (`y[0] = values[0]`); empty input gives an empty output. -/
def ema (values : List ℚ) (alpha : ℚ) : List ℚ :=
  match values with
  | [] => []
  | v :: vs => v :: emaAux alpha v vs

/-- `np.dot` on two equal-length vectors. -/
def dot (xs ys : List ℚ) : ℚ :=
  (List.zipWith (fun a b => a * b) xs ys).sum

/-- Python `round`: round half to even (banker rounding). -/
def pyRound (q : ℚ) : ℤ :=
  if q - ⌊q⌋ < 1 / 2 then ⌊q⌋
  else if 1 / 2 < q - ⌊q⌋ then ⌊q⌋ + 1
  else if ⌊q⌋ % 2 = 0 then ⌊q⌋ else ⌊q⌋ + 1

/-- `activity.predict_speed_next_kmh`: EMA smoothing, a least-squares
single-lag no-intercept autoregressive fit, and a mean-reverting
iteration over `steps` applications of `s := phi * s + (1 - phi) *
mean_tail`; returns the `nan` sentinel when the series has fewer than 6
samples or the sample interval is non-positive. -/
def predict_speed_next_kmh (speed_kmh : List ℚ) (dt_sec : ℚ)
    (horizon_sec : ℤ) : F :=
  if speed_kmh.length < 6 ∨ dt_sec ≤ 0 then F.nan
  else
    let alpha := min 0.5 (max 0.05 (dt_sec / 5.0))
    let smooth := ema speed_kmh alpha
    let x := smooth.tail
    let y := smooth.dropLast
    let denom := dot y y + 1e-12
    let phi := dot y x / denom
    let steps := max 1 (pyRound ((horizon_sec : ℚ) / max 0.1 dt_sec))
    let s0 := smooth.getLast?.getD 0
    let tail := smooth.drop (smooth.length - 50)
    let mean_tail := tail.sum / (tail.length : ℚ)
    let s := (fun s => phi * s + (1.0 - phi) * mean_tail)^[steps.toNat] s0
    F.fin (max 0.0 s)

/-- One GPS sample of a Track: millisecond timestamp plus coordinates in
degrees (reals, since the geometry below is transcendental). -/
structure RawSample where
  timestamp : ℤ
  latitude : ℝ
  longitude : ℝ

/-- `np.radians`: degrees to radians. -/
noncomputable def radians (d : ℝ) : ℝ :=
  d * (Real.pi / 180)

/-- `np.arctan2 y x`: quadrant-aware arctangent. -/
noncomputable def arctan2 (y x : ℝ) : ℝ :=
  if 0 < x then Real.arctan (y / x)
  else if x < 0 then
    (if 0 ≤ y then Real.arctan (y / x) + Real.pi
     else Real.arctan (y / x) - Real.pi)
  else
    (if 0 < y then Real.pi / 2
     else if y < 0 then -(Real.pi / 2)
     else 0)

/-- `metrics.haversine_distance_km`: great-circle distance, Earth radius
6371 km. -/
noncomputable def haversine_distance_km (lat1 lon1 lat2 lon2 : ℝ) : ℝ :=
  let R : ℝ := 6371.0
  let p1 := radians lat1
  let p2 := radians lat2
  let dphi := radians (lat2 - lat1)
  let dl := radians (lon2 - lon1)
  let a := Real.sin (dphi / 2.0) ^ 2
    + Real.cos p1 * Real.cos p2 * Real.sin (dl / 2.0) ^ 2
  let c := 2 * arctan2 (Real.sqrt a) (Real.sqrt (1 - a))
  R * c

/-- `metrics.track_distance_speed_from_gps`: total distance (km) and
the instantaneous speed series (m/s, left-padded with `0.0`); a track
with fewer than two samples yields `(0.0, zeros of the track length)`.
The per-step time delta is floored at `1e-6` s.  (`np.nansum` agrees
with plain summation here: the real-valued model has no `nan`.) -/
noncomputable def track_distance_speed_from_gps (pos : List RawSample) :
    ℝ × List ℝ :=
  if pos.length < 2 then (0.0, List.replicate pos.length 0.0)
  else
    let d_km := List.zipWith
      (fun p q => haversine_distance_km p.latitude p.longitude q.latitude q.longitude)
      pos pos.tail
    let d_m := d_km.map (fun d => d * 1000.0)
    let dt_s := List.zipWith
      (fun p q => max 1e-6 (((q.timestamp - p.timestamp : ℤ) : ℝ) / 1000.0))
      pos pos.tail
    let speed_ms := 0.0 :: List.zipWith (fun d t => d / t) d_m dt_s
    (d_km.sum, speed_ms)

/-! ## Helper lemmas -/

lemma guess_activity_mem (v : F) :
    guess_activity v = "sitting/idle" ∨ guess_activity v = "walking" ∨
    guess_activity v = "running" ∨ guess_activity v = "cycling" := by
  unfold guess_activity
  split_ifs <;> simp

lemma emaAux_replicate (alpha c : ℚ) (k : ℕ) :
    emaAux alpha c (List.replicate k c) = List.replicate k c := by
  induction k with
  | zero => rfl
  | succ n ih =>
    have hc : alpha * c + (1 - alpha) * c = c := by ring
    simp [List.replicate_succ, emaAux, hc, ih]

lemma ema_replicate (n : ℕ) (c alpha : ℚ) :
    ema (List.replicate n c) alpha = List.replicate n c := by
  cases n with
  | zero => rfl
  | succ m => simp [List.replicate_succ, ema, emaAux_replicate]

lemma getLast?_replicate (n : ℕ) (c : ℚ) (h : n ≠ 0) :
    (List.replicate n c).getLast? = some c := by
  induction n with
  | zero => exact absurd rfl h
  | succ m ih =>
    cases m with
    | zero => rfl
    | succ k =>
      rw [List.replicate_succ, List.getLast?_cons]
      simp only [ih (Nat.succ_ne_zero k)]
      simp [List.replicate_succ]

/-! ## Claims -/

/-- C3 counterexample: at `gain_m = -3` the code returns `-1`, while
`max(0, gain_m) / 3.0` is `0`; `floors_from_gain` has no clamping. -/
theorem C3_clamp_counterexample :
    floors_from_gain (-3) = -1 ∧ max 0 (-3 : ℚ) / 3.0 = 0 ∧
    floors_from_gain (-3) ≠ max 0 (-3 : ℚ) / 3.0 := by
  norm_num [floors_from_gain]

/-- C3 amended: for every input, `floors_from_gain gain_m` is plain
division `gain_m / 3.0` with no rounding; only for non-negative input
does it agree with `max(0, gain_m) / 3.0`. -/
theorem C3_floors_no_clamp (gain_m : ℚ) :
    floors_from_gain gain_m = gain_m / 3.0 ∧
    (0 ≤ gain_m → floors_from_gain gain_m = max 0 gain_m / 3.0) := by
  refine ⟨rfl, fun h => ?_⟩
  rw [floors_from_gain, max_eq_right h]

/-- C3 witness: the amended statement evaluated at `gain_m = 6`. -/
theorem C3_floors_no_clamp_witness :
    floors_from_gain 6 = 6 / 3.0 ∧ floors_from_gain 6 = max 0 6 / 3.0 :=
  ⟨(C3_floors_no_clamp 6).1, (C3_floors_no_clamp 6).2 (by norm_num)⟩

/-- C5: the forecaster returns the `nan` sentinel whenever the series
has fewer than 6 samples or the sample interval is non-positive. -/
theorem C5_predict_nan_guard (speed : List ℚ) (dt : ℚ) (h : ℤ)
    (hcond : speed.length < 6 ∨ dt ≤ 0) :
    predict_speed_next_kmh speed dt h = F.nan := by
  unfold predict_speed_next_kmh
  rw [if_pos hcond]

/-- C5 witness: the empty series with `dt = 1`. -/
theorem C5_predict_nan_guard_witness :
    predict_speed_next_kmh [] 1 30 = F.nan :=
  C5_predict_nan_guard [] 1 30 (Or.inl (by simp))

/-- C7 counterexample: with a negative MET value the calorie formula is
negative even for positive minutes, so the claimed invariant without any
precondition on `met` and `weight_kg` fails. -/
theorem C7_negative_met_counterexample :
    ¬(0 ≤ calories_from_met (-1) 10 75) := by
  norm_num [calories_from_met, max_def]

/-- C7 amended: `calories_from_met met minutes weight_kg ≥ 0` holds for
every `minutes` (the `max(0.0, minutes)` clamp makes a sign condition on
minutes unnecessary) provided `met ≥ 0` and `weight_kg ≥ 0`. -/
theorem C7_calories_nonneg (met minutes weight_kg : ℚ)
    (hmet : 0 ≤ met) (hw : 0 ≤ weight_kg) :
    0 ≤ calories_from_met met minutes weight_kg := by
  unfold calories_from_met
  have h1 : (0 : ℚ) ≤ met * 3.5 * weight_kg / 200.0 := by positivity
  have h2 : (0 : ℚ) ≤ max 0.0 minutes :=
    le_trans (by norm_num) (le_max_left 0.0 minutes)
  exact mul_nonneg h1 h2

/-- C7 witness: the amended statement at `met = 2`, `minutes = -5`,
`weight_kg = 75`. -/
theorem C7_calories_nonneg_witness :
    0 ≤ calories_from_met 2 (-5) 75 :=
  C7_calories_nonneg 2 (-5) 75 (by norm_num) (by norm_num)

/-- C9: a track with fewer than two samples yields total distance `0.0`
and a zero-filled speed series of the track length. -/
theorem C9_short_track (pos : List RawSample) (h : pos.length < 2) :
    track_distance_speed_from_gps pos = (0.0, List.replicate pos.length 0.0) := by
  unfold track_distance_speed_from_gps
  rw [if_pos h]

/-- C9 witness: a one-sample track. -/
theorem C9_short_track_witness :
    track_distance_speed_from_gps [⟨0, 0, 0⟩] = (0.0, [0.0]) := by
  have h := C9_short_track [⟨0, 0, 0⟩] (by simp)
  simpa using h

/-- C10: the haversine distance from any valid coordinate to itself is
zero, poles and antimeridian included. -/
theorem C10_haversine_self_zero (lat lon : ℝ)
    (h1 : -90 ≤ lat) (h2 : lat ≤ 90) :
    haversine_distance_km lat lon lat lon = 0 := by
  unfold haversine_distance_km radians arctan2
  norm_num [Real.sqrt_zero, Real.sqrt_one, Real.arctan_zero]

/-- C10 witness: the north pole on the antimeridian. -/
theorem C10_haversine_self_zero_witness :
    haversine_distance_km 90 180 90 180 = 0 :=
  C10_haversine_self_zero 90 180 (by norm_num) (by norm_num)

/-- C2: in the composed pipeline the label goes through
`normalize_activity` before the MET lookup.  The classifier's idle label
`sitting/idle` is normalized to `sitting`, which `met_for_activity` does
not recognize, so such a session gets the default MET `3.5` rather than
the idle constant `1.5`; a cycling-band label is normalized to
`walking`, so such a session gets the walking MET formula.  Moreover no
normalized label ever reaches the recognized `sitting/idle` branch. -/
theorem C2_normalize_met_pipeline (v : F) (s : ℚ) :
    guess_activity F.nan = "sitting/idle" ∧
    normalize_activity "sitting/idle" = "sitting" ∧
    met_for_activity (normalize_activity "sitting/idle") s = 3.5 ∧
    met_for_activity "sitting/idle" s = 1.5 ∧
    guess_activity (F.fin 15) = "cycling" ∧
    normalize_activity "cycling" = "walking" ∧
    met_for_activity (normalize_activity "cycling") s
      = max 3.0 (min 5.0 (3.0 + 0.4 * (s - 3))) ∧
    met_for_activity (normalize_activity "cycling") s
      = met_for_activity "walking" s ∧
    normalize_activity (guess_activity v) ≠ "sitting/idle" := by
  have hn1 : normalize_activity "sitting/idle" = "sitting" := by decide
  have hn2 : normalize_activity "cycling" = "walking" := by decide
  have hg15 : guess_activity (F.fin 15) = "cycling" := by
    unfold guess_activity
    norm_num [F.blt, F.isFinite]
  refine ⟨rfl, hn1, ?_, ?_, hg15, hn2, ?_, ?_, ?_⟩
  · rw [hn1]; simp [met_for_activity]
  · simp [met_for_activity]
  · rw [hn2]; simp [met_for_activity]
  · rw [hn2]
  · rcases guess_activity_mem v with h | h | h | h <;> rw [h] <;> decide

/-- C2 witness: the pipeline conjunction evaluated at the concrete
inputs `v = F.nan`, `s = 10`. -/
theorem C2_normalize_met_pipeline_witness :
    met_for_activity (normalize_activity "sitting/idle") 10 = 3.5 ∧
    met_for_activity "sitting/idle" 10 = 1.5 ∧
    normalize_activity (guess_activity F.nan) ≠ "sitting/idle" :=
  ⟨(C2_normalize_met_pipeline F.nan 10).2.2.1,
   (C2_normalize_met_pipeline F.nan 10).2.2.2.1,
   (C2_normalize_met_pipeline F.nan 10).2.2.2.2.2.2.2.2⟩

/-- C1 counterexample: the values of the `[0,150)` segment of
`estimate_life_expectancy_gain` do not approach the value `1.0` taken at
`w = 150`: there is a gap of at least `1/4` however close `w` comes to
`150` from below, so the function is not continuous there. -/
theorem C1_discontinuity_counterexample :
    ∃ ε : ℚ, 0 < ε ∧ ∀ δ : ℚ, 0 < δ → ∃ w : ℚ,
      150 - δ < w ∧ w < 150 ∧
      ε ≤ |estimate_life_expectancy_gain (F.fin w) -
            estimate_life_expectancy_gain (F.fin 150)| := by
  refine ⟨1/4, by norm_num, fun δ hδ => ?_⟩
  set m : ℚ := min δ 1 / 2 with hm
  have hm0 : 0 < m := by
    have : 0 < min δ 1 := lt_min hδ one_pos
    positivity
  have hm1 : m ≤ 1 / 2 := by
    have : min δ 1 ≤ 1 := min_le_right δ 1
    rw [hm]; linarith
  have hmδ : m < δ := by
    have h1 : min δ 1 ≤ δ := min_le_left δ 1
    rw [hm]; linarith
  refine ⟨150 - m, by linarith, by linarith, ?_⟩
  have hv : estimate_life_expectancy_gain (F.fin (150 - m)) = 0.5 * ((150 - m) / 150.0) := by
    simp only [estimate_life_expectancy_gain]
    rw [if_neg (by push_neg; linarith), if_pos (by linarith)]
  have h150 : estimate_life_expectancy_gain (F.fin 150) = 1.0 := by
    norm_num [estimate_life_expectancy_gain]
  rw [hv, h150]
  rw [abs_of_nonpos (by nlinarith)]
  nlinarith

/-- C1 amended: `estimate_life_expectancy_gain` returns exactly `1.0`
at `w = 150`, but is not continuous there: on `[0,150)` the value is
`0.5 * w / 150 ≤ 0.5`, and as `w` approaches `150` from below the
values approach `0.5`, not the value `1.0` taken at `150`. -/
theorem C1_boundary_jump (w : ℚ) :
    estimate_life_expectancy_gain (F.fin 150) = 1.0 ∧
    (w < 150 → estimate_life_expectancy_gain (F.fin w) ≤ 0.5) ∧
    (0 < w → w < 150 →
      estimate_life_expectancy_gain (F.fin w) = 0.5 * (w / 150.0)) ∧
    (∀ ε : ℚ, 0 < ε → ∃ δ : ℚ, 0 < δ ∧ ∀ v : ℚ, 150 - δ < v → v < 150 →
      |estimate_life_expectancy_gain (F.fin v) - 0.5| < ε) := by
  have h150 : estimate_life_expectancy_gain (F.fin 150) = 1.0 := by
    norm_num [estimate_life_expectancy_gain]
  have hseg : ∀ v : ℚ, 0 < v → v < 150 →
      estimate_life_expectancy_gain (F.fin v) = 0.5 * (v / 150.0) := by
    intro v h0 h1
    simp only [estimate_life_expectancy_gain]
    rw [if_neg (by push_neg; linarith), if_pos h1]
  refine ⟨h150, ?_, hseg w, ?_⟩
  · intro hw
    rcases le_or_lt w 0 with h0 | h0
    · simp only [estimate_life_expectancy_gain]
      rw [if_pos h0]; norm_num
    · rw [hseg w h0 hw]; nlinarith
  · intro ε hε
    refine ⟨min 1 (300 * ε), lt_min one_pos (by positivity), fun v hv1 hv2 => ?_⟩
    have hd1 : min 1 (300 * ε) ≤ 1 := min_le_left _ _
    have hd2 : min 1 (300 * ε) ≤ 300 * ε := min_le_right _ _
    have hv0 : (0 : ℚ) < v := by linarith
    rw [hseg v hv0 hv2, abs_of_nonpos (by nlinarith)]
    nlinarith

/-- C1 witness: the amended statement evaluated at `w = 100`. -/
theorem C1_boundary_jump_witness :
    estimate_life_expectancy_gain (F.fin 150) = 1.0 ∧
    estimate_life_expectancy_gain (F.fin 100) ≤ 0.5 ∧
    estimate_life_expectancy_gain (F.fin 100) = 0.5 * (100 / 150.0) :=
  ⟨(C1_boundary_jump 100).1,
   (C1_boundary_jump 100).2.1 (by norm_num),
   (C1_boundary_jump 100).2.2.1 (by norm_num) (by norm_num)⟩

set_option maxHeartbeats 1000000 in
/-- C8: on `(0, 1500]` the life-expectancy curve is monotone
non-decreasing, and for `w ≥ 1500` it saturates at exactly `6.7`. -/
theorem C8_monotone_saturation (w1 w2 w : ℚ)
    (h1 : 0 < w1) (h12 : w1 ≤ w2) (h2 : w2 ≤ 1500) (hw : 1500 ≤ w) :
    estimate_life_expectancy_gain (F.fin w1) ≤
      estimate_life_expectancy_gain (F.fin w2) ∧
    estimate_life_expectancy_gain (F.fin w) = 6.7 := by
  constructor
  · obtain ⟨e1, l1⟩ | ⟨e1, l1⟩ := min_cases (w1 - 600.0) (900.0 : ℚ) <;>
      obtain ⟨e2, l2⟩ | ⟨e2, l2⟩ := min_cases (w2 - 600.0) (900.0 : ℚ) <;>
      (simp only [estimate_life_expectancy_gain]; split_ifs <;> linarith)
  · simp only [estimate_life_expectancy_gain]
    rw [if_neg (by push_neg; linarith), if_neg (by push_neg; linarith),
      if_neg (by push_neg; linarith), if_neg (by push_neg; linarith),
      min_eq_right (by linarith)]
    norm_num

/-- C8 witness: the statement at `w1 = 100`, `w2 = 200`, `w = 2000`. -/
theorem C8_monotone_saturation_witness :
    estimate_life_expectancy_gain (F.fin 100) ≤
      estimate_life_expectancy_gain (F.fin 200) ∧
    estimate_life_expectancy_gain (F.fin 2000) = 6.7 :=
  C8_monotone_saturation 100 200 2000 (by norm_num) (by norm_num)
    (by norm_num) (by norm_num)


lemma guess_activity_idle_iff (v : F) :
    guess_activity v = "sitting/idle" ↔
      (v.isFinite = false ∨ ∃ a : ℚ, v = F.fin a ∧ a < 1.5) := by
  cases v with
  | nan => simp [guess_activity, F.isFinite]
  | pinf => simp [guess_activity, F.isFinite]
  | ninf => simp [guess_activity, F.isFinite]
  | fin a =>
    simp only [guess_activity, F.blt, F.isFinite, Bool.not_true, Bool.false_or,
      decide_eq_true_eq, F.fin.injEq, exists_eq_left', Bool.true_eq_false, false_or]
    split_ifs with h1 h2 h3 <;>
      simp only [String.reduceEq, false_iff, true_iff, not_and, not_lt] <;>
      first
      | linarith
      | (constructor <;> linarith)
      | (intro ha; linarith)
      | (constructor <;> intro ha <;> linarith)

lemma guess_activity_walking_iff (v : F) :
    guess_activity v = "walking" ↔
      ∃ a : ℚ, v = F.fin a ∧ 1.5 ≤ a ∧ a < 6 := by
  cases v with
  | nan => simp [guess_activity, F.isFinite]
  | pinf => simp [guess_activity, F.isFinite]
  | ninf => simp [guess_activity, F.isFinite]
  | fin a =>
    simp only [guess_activity, F.blt, F.isFinite, Bool.not_true, Bool.false_or,
      decide_eq_true_eq, F.fin.injEq, exists_eq_left']
    split_ifs with h1 h2 h3 <;>
      simp only [String.reduceEq, false_iff, true_iff, not_and, not_lt] <;>
      first
      | linarith
      | (constructor <;> linarith)
      | (intro ha; linarith)
      | (constructor <;> intro ha <;> linarith)

lemma guess_activity_running_iff (v : F) :
    guess_activity v = "running" ↔
      ∃ a : ℚ, v = F.fin a ∧ 6 ≤ a ∧ a < 12 := by
  cases v with
  | nan => simp [guess_activity, F.isFinite]
  | pinf => simp [guess_activity, F.isFinite]
  | ninf => simp [guess_activity, F.isFinite]
  | fin a =>
    simp only [guess_activity, F.blt, F.isFinite, Bool.not_true, Bool.false_or,
      decide_eq_true_eq, F.fin.injEq, exists_eq_left']
    split_ifs with h1 h2 h3 <;>
      simp only [String.reduceEq, false_iff, true_iff, not_and, not_lt] <;>
      first
      | linarith
      | (constructor <;> linarith)
      | (intro ha; linarith)
      | (constructor <;> intro ha <;> linarith)

lemma guess_activity_cycling_iff (v : F) :
    guess_activity v = "cycling" ↔ ∃ a : ℚ, v = F.fin a ∧ 12 ≤ a := by
  cases v with
  | nan => simp [guess_activity, F.isFinite]
  | pinf => simp [guess_activity, F.isFinite]
  | ninf => simp [guess_activity, F.isFinite]
  | fin a =>
    simp only [guess_activity, F.blt, F.isFinite, Bool.not_true, Bool.false_or,
      decide_eq_true_eq, F.fin.injEq, exists_eq_left']
    split_ifs with h1 h2 h3 <;>
      simp only [String.reduceEq, false_iff, true_iff, not_and, not_lt] <;>
      first
      | linarith
      | (constructor <;> linarith)
      | (intro ha; linarith)
      | (constructor <;> intro ha <;> linarith)

lemma classify_stairs_iff (avg fpm : F) :
    classify avg fpm = "stairs" ↔
      ((∃ q : ℚ, fpm = F.fin q ∧ 1 ≤ q) ∧
        (avg.isFinite = false ∨ ∃ a : ℚ, avg = F.fin a ∧ a < 6)) := by
  cases avg <;> cases fpm <;>
    simp only [classify, guess_activity, F.blt, F.bge, F.isFinite,
      Bool.not_true, Bool.not_false, Bool.false_or, Bool.true_or, Bool.or_self,
      Bool.false_and, Bool.true_and, Bool.and_false, Bool.and_true,
      decide_eq_true_eq, F.fin.injEq, exists_eq_left', Bool.true_eq_false,
      Bool.false_eq_true, false_or, or_false, false_and, and_false] <;>
    (try simp) <;>
    (try split_ifs) <;>
    (try simp only [String.reduceEq, false_iff, true_iff, iff_true, iff_false,
      not_and, not_lt, not_or, not_exists, not_le]) <;>
    first
    | linarith
    | (constructor <;> linarith)
    | (intro ha; linarith)
    | (constructor <;> intro ha <;> linarith)
    | norm_num
    | tauto

/-- C4 counterexample: with `floors_per_minute = +inf` the claimed
condition holds (`+inf ≥ 1.0` is true and `3 < 6.0`), yet the code's
extra `np.isfinite(floors_per_min)` conjunct makes the label `walking`,
not `stairs`. -/
theorem C4_infinite_fpm_counterexample :
    F.bge F.pinf (F.fin 1.0) = true ∧
    F.blt (F.fin 3) (F.fin 6.0) = true ∧
    classify (F.fin 3) F.pinf = "walking" ∧
    classify (F.fin 3) F.pinf ≠ "stairs" := by
  refine ⟨rfl, ?_, ?_, ?_⟩
  · simp only [F.blt, decide_eq_true_eq]; norm_num
  · simp only [classify, F.isFinite, Bool.false_and, Bool.and_false,
      Bool.false_eq_true, if_false]
    rw [guess_activity_walking_iff]
    exact ⟨3, rfl, by norm_num, by norm_num⟩
  · simp only [classify, F.isFinite, Bool.false_and, Bool.and_false,
      Bool.false_eq_true, if_false]
    have hw : guess_activity (F.fin 3) = "walking" :=
      (guess_activity_walking_iff (F.fin 3)).mpr ⟨3, rfl, by norm_num, by norm_num⟩
    rw [hw]
    decide

/-- C4 amended: the label is `stairs` exactly when `floors_per_minute`
is finite with value at least `1.0` and (`avg_speed_kmh` is non-finite
or below `6.0`); otherwise the label is the speed-band result of
`guess_activity` (non-finite or `< 1.5` idle, `[1.5, 6)` walking,
`[6, 12)` running, `≥ 12` cycling), and the override never replaces a
band result at or above `6` km/h. -/
theorem C4_stairs_override (avg fpm : F) (x : ℚ) :
    (classify avg fpm = "stairs" ↔
      ((∃ q : ℚ, fpm = F.fin q ∧ 1 ≤ q) ∧
        (avg.isFinite = false ∨ ∃ a : ℚ, avg = F.fin a ∧ a < 6))) ∧
    (classify avg fpm = "stairs" ∨ classify avg fpm = guess_activity avg) ∧
    (guess_activity avg = "sitting/idle" ↔
      (avg.isFinite = false ∨ ∃ a : ℚ, avg = F.fin a ∧ a < 1.5)) ∧
    (guess_activity avg = "walking" ↔
      ∃ a : ℚ, avg = F.fin a ∧ 1.5 ≤ a ∧ a < 6) ∧
    (guess_activity avg = "running" ↔
      ∃ a : ℚ, avg = F.fin a ∧ 6 ≤ a ∧ a < 12) ∧
    (guess_activity avg = "cycling" ↔
      ∃ a : ℚ, avg = F.fin a ∧ 12 ≤ a) ∧
    (6 ≤ x → classify (F.fin x) fpm = guess_activity (F.fin x)) := by
  refine ⟨classify_stairs_iff avg fpm, ?_, guess_activity_idle_iff avg,
    guess_activity_walking_iff avg, guess_activity_running_iff avg,
    guess_activity_cycling_iff avg, ?_⟩
  · unfold classify
    split_ifs <;> simp
  · intro hx
    unfold classify
    rw [if_neg]
    simp only [F.isFinite, Bool.not_true, Bool.false_or, F.blt,
      decide_eq_true_eq, Bool.and_eq_true, decide_eq_true_eq]
    rintro ⟨-, hlt⟩
    linarith

/-- C4 witness: `avg = 7 km/h`, `fpm = 2`: the override does not fire
and the result is the band label. -/
theorem C4_stairs_override_witness :
    classify (F.fin 7) (F.fin 2) = guess_activity (F.fin 7) :=
  (C4_stairs_override (F.fin 7) (F.fin 2) 7).2.2.2.2.2.2 (by norm_num)

lemma drop_replicate (i n : ℕ) (c : ℚ) :
    (List.replicate n c).drop i = List.replicate (n - i) c := by
  induction n generalizing i with
  | zero => simp
  | succ m ih =>
    cases i with
    | zero => simp
    | succ j => simp [List.replicate_succ, ih]

/-- C6: on a constant series of any non-negative value `c` with at
least 6 samples and a positive sample interval, the forecaster returns
exactly `c`: the EMA of a constant series is the constant, the tail
mean equals `c`, and `c` is a fixed point of the mean-reverting
iteration. -/
theorem C6_constant_series_fixed_point (c : ℚ) (n : ℕ) (dt : ℚ) (h : ℤ)
    (hc : 0 ≤ c) (hn : 6 ≤ n) (hdt : 0 < dt) :
    predict_speed_next_kmh (List.replicate n c) dt h = F.fin c := by
  unfold predict_speed_next_kmh
  rw [if_neg]
  · have hk : n - (n - 50) ≠ 0 := by omega
    have hkq : ((n - (n - 50) : ℕ) : ℚ) ≠ 0 := Nat.cast_ne_zero.mpr hk
    simp only [ema_replicate, List.length_replicate, drop_replicate,
      getLast?_replicate n c (by omega), Option.getD_some, List.sum_replicate,
      nsmul_eq_mul]
    rw [mul_div_cancel_left₀ c hkq]
    rw [Function.iterate_fixed (by ring)]
    rw [max_eq_right (by linarith : (0.0 : ℚ) ≤ c)]
  · rw [not_or, not_lt, not_le, List.length_replicate]
    exact ⟨hn, hdt⟩

/-- C6 witness: six samples of `10.0`, `dt = 1`, horizon 30. -/
theorem C6_constant_series_fixed_point_witness :
    predict_speed_next_kmh (List.replicate 6 10) 1 30 = F.fin 10 :=
  C6_constant_series_fixed_point 10 6 1 30 (by norm_num) (by norm_num)
    (by norm_num)
